import Mathlib

/-!
Verification development for the repository code analyzer and cost estimator
(`Python/repo_code_analyzer.py`).

The Python source is shallowly embedded:
* the content of a file is a list of lines, each line a `List Char`;
* regular expressions of the form `^\s*MARKER` are embedded as
  "after dropping leading whitespace, the line starts with MARKER"
  (every registered marker begins with a non-whitespace character, so the
  greedy `\s*` is equivalent to dropping the full whitespace run);
* Python floats are idealized as exact arithmetic: rational inputs, real
  arithmetic where `math.pow` with non-integral exponents occurs
  (`Real.rpow`);
* the Python builtin round (bankers rounding, ties to even) is embedded as `pyRound`;
* the filesystem probe of `is_binary_file` is abstracted as an
  `Option (List Nat)` argument: `none` models a read that raises,
  `some chunk` models a successful read of the first 8192 bytes.
-/

/-- Whitespace characters as matched by the Python regex class s (backslash-s) on ASCII input
(space, tab, newline, carriage return, vertical tab, form feed). -/
def pyWS (c : Char) : Bool :=
  c = ' ' || c = '\t' || c = '\n' || c = '\r' || c = '\x0b' || c = '\x0c'

/-- Embedding of the blank test `re.match` with pattern caret-ws-dollar: the line consists only of whitespace. -/
def isBlankLine (l : List Char) : Bool :=
  l.all pyWS

/-- Tests whether the first list is an initial segment of the second. -/
def listStarts : List Char → List Char → Bool
  | [], _ => true
  | _ :: _, [] => false
  | m :: ms, c :: cs => m = c && listStarts ms cs

/-- Embedding of `re.search` for a pattern of the form caret-ws-MARKER:
drop the leading whitespace run and test the marker. -/
def matchesMarker (marker : List Char) (l : List Char) : Bool :=
  listStarts marker (l.dropWhile pyWS)

/-- Table `COMMENT_PATTERNS`: per-language comment-prefix markers
(each Python pattern caret-ws-X is represented by its marker X). -/
def commentMarkersFor (language : String) : List (List Char) :=
  if language = "R" then [['#']]
  else if language = "JavaScript" then [['/', '/'], ['/', '*'], ['*']]
  else if language = "TypeScript" then [['/', '/'], ['/', '*'], ['*']]
  else if language = "CSS" then [['/', '*'], ['*']]
  else if language = "Sass" then [['/', '/'], ['/', '*'], ['*']]
  else if language = "HTML" then [['<', '!', '-', '-']]
  else if language = "Python" then [['#']]
  else if language = "Shell" then [['#']]
  else if language = "SQL" then [['-', '-'], ['/', '*'], ['*']]
  else if language = "C" then [['/', '/'], ['/', '*'], ['*']]
  else if language = "C++" then [['/', '/'], ['/', '*'], ['*']]
  else if language = "Java" then [['/', '/'], ['/', '*'], ['*']]
  else []

/-- A line is a comment line when at least one of the patterns of its language
matches it (single pass, logical OR, so a line satisfying several
patterns is counted once). -/
def isCommentLine (language : String) (l : List Char) : Bool :=
  (commentMarkersFor language).any (fun m => matchesMarker m l)

/-- Source: `total_lines = len(lines)`. -/
def totalLines (lines : List (List Char)) : Nat :=
  lines.length

/-- Source: `blank_lines = sum(1 for L in lines if re.match(blank, L))`. -/
def blankCount (lines : List (List Char)) : Nat :=
  (lines.filter isBlankLine).length

/-- Source: `comment_lines = sum(1 for L in lines if any(prog.search(L) ...))`. -/
def commentCount (language : String) (lines : List (List Char)) : Nat :=
  (lines.filter (isCommentLine language)).length

/-- Source: `code_lines = total_lines - blank_lines - comment_lines`
(the source computes this without clamping, over Python ints,
so the embedding uses `Int`). -/
def codeCount (language : String) (lines : List (List Char)) : Int :=
  (totalLines lines : Int) - blankCount lines - commentCount language lines

/-- Table `BINARY_EXTENSIONS` as the fixed extension list of the source. -/
def BINARY_EXTENSIONS : List String :=
  [".png", ".jpg", ".jpeg", ".gif", ".bmp", ".ico", ".tiff", ".webp",
   ".woff", ".woff2", ".ttf", ".otf", ".eot",
   ".rds", ".rdata", ".rda", ".rdb", ".rdx",
   ".pyc", ".so", ".dylib", ".dll", ".o", ".class", ".jar",
   ".zip", ".tar", ".gz", ".bz2", ".xz", ".7z", ".rar",
   ".pdf", ".doc", ".docx", ".xls", ".xlsx", ".ppt", ".pptx",
   ".mp3", ".mp4", ".wav", ".avi", ".mov", ".ogg",
   ".sqlite", ".db", ".exe", ".bin", ".dat", ".lock"]

/-- Embedding of the Python string method lower on ASCII input. -/
def strLower (s : String) : String :=
  ⟨s.data.map Char.toLower⟩

/-- Embedding of `is_binary_file`: `ext` is the (already split-off) extension of the
path, lower-cased inside as in the source; `probe` abstracts the
`open`/`read(8192)` I/O: `none` models a raised exception, `some chunk`
the bytes actually read. The source returns `False` from the
`except Exception` handler. -/
def is_binary_file (ext : String) (probe : Option (List Nat)) : Bool :=
  if BINARY_EXTENSIONS.contains (strLower ext) then true
  else
    match probe with
    | none => false
    | some chunk => if chunk.isEmpty then false else chunk.contains 0

/-- Embedding of the Python builtin round on an exact value: round half to even. -/
def pyRound {α : Type} [LinearOrderedField α] [FloorRing α] (x : α) : Int :=
  if Int.fract x < 1 / 2 then ⌊x⌋
  else if 1 / 2 < Int.fract x then ⌊x⌋ + 1
  else if ⌊x⌋ % 2 = 0 then ⌊x⌋ else ⌊x⌋ + 1

/-- Embedding of the Python builtin round with two decimal digits on an exact value. -/
def pyRound2 {α : Type} [LinearOrderedField α] [FloorRing α] (x : α) : α :=
  ((pyRound (x * 100) : Int) : α) / 100

/-!
## The cost estimator `estimate_shiny_cost`

Numeric parameters are embedded as exact rationals; the two
non-integral power operations (`pow(KLOC, B)` and `pow(effort, D)`) force
the downstream pipeline into `ℝ` with `Real.rpow`.  The
"realistic constraints" layer (source lines 367-423) only uses field
operations, `min`, comparisons and `round`, so it is defined
polymorphically over any linear ordered field with a floor and is
instantiated at `ℝ` by the pipeline and at `ℚ` in concrete tests.
-/

/-- The keyword parameters of `estimate_shiny_cost`
(`code_lines` and `language_mix` are passed separately). -/
structure EstParams where
  complexity : String
  team_experience : ℚ
  reuse_factor : ℚ
  tool_support : ℚ
  avg_wage : ℚ
  max_team_size : ℚ
  max_schedule_months : ℚ
  rely : ℚ
  cplx : ℚ
  ruse : ℚ
  pcon : ℚ
  apex : ℚ
  maintenance_rate : ℚ
  maintenance_years : ℤ

/-- The input-validation block (source lines 300-323): the first failing
check raises `ValueError`; `none` means all checks passed.  Note that
`avg_wage`, `max_team_size` and `max_schedule_months` have no check. -/
def validate (code_lines : ℚ) (p : EstParams) : Option String :=
  if code_lines < 0 then
    some "code_lines must be a non-negative number"
  else if ¬(p.complexity = "low" ∨ p.complexity = "medium" ∨ p.complexity = "high") then
    some "complexity must be low, medium, or high"
  else if ¬(1 ≤ p.team_experience ∧ p.team_experience ≤ 5) then
    some "team_experience must be between 1 and 5"
  else if ¬(7/10 ≤ p.reuse_factor ∧ p.reuse_factor ≤ 13/10) then
    some "reuse_factor must be between 0.7 and 1.3"
  else if ¬(4/5 ≤ p.tool_support ∧ p.tool_support ≤ 6/5) then
    some "tool_support must be between 0.8 and 1.2"
  else if ¬(41/50 ≤ p.rely ∧ p.rely ≤ 63/50) then
    some "rely must be between 0.82 and 1.26"
  else if ¬(73/100 ≤ p.cplx ∧ p.cplx ≤ 87/50) then
    some "cplx must be between 0.73 and 1.74"
  else if ¬(19/20 ≤ p.ruse ∧ p.ruse ≤ 31/25) then
    some "ruse must be between 0.95 and 1.24"
  else if ¬(81/100 ≤ p.pcon ∧ p.pcon ≤ 129/100) then
    some "pcon must be between 0.81 and 1.29"
  else if ¬(81/100 ≤ p.apex ∧ p.apex ≤ 61/50) then
    some "apex must be between 0.81 and 1.22"
  else if ¬(0 ≤ p.maintenance_rate ∧ p.maintenance_rate ≤ 1) then
    some "maintenance_rate must be between 0 and 1"
  else if p.maintenance_years < 0 then
    some "maintenance_years must be non-negative"
  else
    none

/-- Source: B is looked up from the complexity dict (low 1.02, medium 1.10, high 1.18) with default 1.10. -/
def Bof (c : String) : ℚ :=
  if c = "low" then 102/100
  else if c = "medium" then 110/100
  else if c = "high" then 118/100
  else 110/100

/-- Source: `D = 0.28 + 0.2 * (B - 1.01)`. -/
def Dof (c : String) : ℚ :=
  28/100 + 2/10 * (Bof c - 101/100)

/-- Dictionary lookup in `lang_productivity` with default `1.0`. -/
def langProductivity (lang : String) : ℚ :=
  if lang = "R" then 1
  else if lang = "Python" then 11/10
  else if lang = "SQL" then 13/10
  else if lang = "JavaScript" then 9/10
  else if lang = "CSS" then 12/10
  else if lang = "HTML" then 13/10
  else if lang = "Markdown" then 15/10
  else if lang = "Quarto" then 15/10
  else if lang = "YAML" then 15/10
  else if lang = "JSON" then 15/10
  else 1

/-- Source: `weighted` starts at 0.0 and accumulates `lines / prod` over
the language mix (dict iteration order = list order). -/
def weightedLines (mix : List (String × ℚ)) : ℚ :=
  mix.foldl (fun acc pr => acc + pr.2 / langProductivity pr.1) 0

/-- Effective size in KLOC (source lines 333-340): `if language_mix:` is
Python truthiness, so `None` and the empty dict both fall back to
`code_lines / 1000.0`. -/
def KLOCof (code_lines : ℚ) (mix : Option (List (String × ℚ))) : ℚ :=
  match mix with
  | some m => if m.isEmpty then code_lines / 1000 else weightedLines m / 1000
  | none => code_lines / 1000

/-- Source: `EM_experience = 1.2 - 0.05 * team_experience`. -/
def EM_experience (te : ℚ) : ℚ :=
  12/10 - 5/100 * te

/-- Product `EM_total` of the nine effort multipliers
(`EM_modern = 0.85` fixed). -/
def EM_total (p : EstParams) : ℚ :=
  EM_experience p.team_experience * p.reuse_factor * p.tool_support * (85/100) *
    p.rely * p.cplx * p.ruse * p.pcon * p.apex

/-- Source: `base_effort = A * pow(KLOC, B)` with `A = 2.50` (real-exponent power). -/
noncomputable def baseEffortK (K : ℚ) (p : EstParams) : ℝ :=
  (5/2) * (K : ℝ) ^ ((Bof p.complexity : ℚ) : ℝ)

/-- Source: `effort = base_effort * EM_total`. -/
noncomputable def effortK (K : ℚ) (p : EstParams) : ℝ :=
  baseEffortK K p * ((EM_total p : ℚ) : ℝ)

/-- Source: `schedule = C * pow(effort, D)` with `C = 3.50`, as a function of the
effort value. -/
noncomputable def schedE (D e : ℝ) : ℝ :=
  (7/2) * e ^ D

/-- Source: `people = effort / schedule if schedule > 0 else effort`, as a
function of the effort value. -/
noncomputable def peopleE (D e : ℝ) : ℝ :=
  if 0 < schedE D e then e / schedE D e else e

/-- Schedule of the pipeline for a given size. -/
noncomputable def scheduleK (K : ℚ) (p : EstParams) : ℝ :=
  schedE ((Dof p.complexity : ℚ) : ℝ) (effortK K p)

/-- Nominal people of the pipeline for a given size. -/
noncomputable def peopleK (K : ℚ) (p : EstParams) : ℝ :=
  peopleE ((Dof p.complexity : ℚ) : ℝ) (effortK K p)

/-- Source: `unconstrained_people = min(original_people, max_team_size)`. -/
def unconstrainedPeopleV {α : Type} [LinearOrderedField α] (people mteam : α) : α :=
  min people mteam

/-- Source: `final_people = min(unconstrained_people, max_realistic_people)` with
`max_realistic_people = 8`. -/
def finalPeopleV {α : Type} [LinearOrderedField α] (people mteam : α) : α :=
  min (unconstrainedPeopleV people mteam) 8

/-- Source: `natural_schedule = original_effort / final_people if final_people > 0
else original_effort`. -/
def naturalScheduleV {α : Type} [LinearOrderedField α] (e people mteam : α) : α :=
  if 0 < finalPeopleV people mteam then e / finalPeopleV people mteam else e

/-- Source: `final_schedule = min(natural_schedule, max_schedule_months)`. -/
def finalScheduleV {α : Type} [LinearOrderedField α] (e people mteam cap : α) : α :=
  min (naturalScheduleV e people mteam) cap

/-- The discrete premium tier selected from the compression ratio
(source lines 387-394). -/
def premiumTier {α : Type} [LinearOrderedField α] (r : α) : α :=
  if 4 ≤ r then 2
  else if 3 ≤ r then 17/10
  else if 2 ≤ r then 7/5
  else 6/5

/-- Source: `compression_ratio = natural_schedule / final_schedule if
final_schedule > 0 else natural_schedule`. -/
def compressionRatioV {α : Type} [LinearOrderedField α] (e people mteam cap : α) : α :=
  if 0 < finalScheduleV e people mteam cap then
    naturalScheduleV e people mteam / finalScheduleV e people mteam cap
  else naturalScheduleV e people mteam

/-- Value of `premium_multiplier` after the branch on
`natural_schedule > max_schedule_months` (initially `1.0`). -/
def premiumMultiplierV {α : Type} [LinearOrderedField α] (e people mteam cap : α) : α :=
  if cap < naturalScheduleV e people mteam then
    premiumTier (compressionRatioV e people mteam cap)
  else 1

/-- Value of `coordination_premium` after the branch (initially `1.0`, set to
`1.1` when `final_people >= 6` in the uncompressed branch). -/
def coordinationPremiumV {α : Type} [LinearOrderedField α] (e people mteam cap : α) : α :=
  if cap < naturalScheduleV e people mteam then 1
  else if 6 ≤ finalPeopleV people mteam then 11/10 else 1

/-- Value of `realistic_cost` (source lines 385-399): effort times monthly wage
times the premium of the taken branch. -/
def realisticCostV {α : Type} [LinearOrderedField α] (e people wage mteam cap : α) : α :=
  if cap < naturalScheduleV e people mteam then
    e * (wage / 12) * premiumMultiplierV e people mteam cap
  else
    e * (wage / 12) * coordinationPremiumV e people mteam cap

/-- Source: `average_monthly_cost = round(realistic_cost / final_schedule) if
final_schedule > 0 else 0`. -/
def avgMonthlyV {α : Type} [LinearOrderedField α] [FloorRing α] (rc fs : α) : ℤ :=
  if 0 < fs then pyRound (rc / fs) else 0

/-- Low confidence bound: `round(realistic_cost * 0.70)`. -/
def ciLowV {α : Type} [LinearOrderedField α] [FloorRing α] (rc : α) : ℤ :=
  pyRound (rc * (7/10))

/-- High confidence bound: `round(realistic_cost * 1.30)`. -/
def ciHighV {α : Type} [LinearOrderedField α] [FloorRing α] (rc : α) : ℤ :=
  pyRound (rc * (13/10))

/-- The `maintenance` dictionary (source lines 416-423). -/
structure MaintOut (α : Type) where
  annual_maintenance : ℤ
  maintenance_years : ℤ
  maintenance_rate : α
  yearly_costs : List ℤ
  total_maintenance : ℤ
  tco : ℤ

/-- The maintenance projection (source lines 409-423): `None` unless
`maintenance_years > 0`; note `tco` adds the ROUNDED realistic cost. -/
def maintenanceOf {α : Type} [LinearOrderedField α] [FloorRing α]
    (rc rate : α) (years : ℤ) : Option (MaintOut α) :=
  if 0 < years then
    some
      { annual_maintenance := pyRound (rc * rate)
        maintenance_years := years
        maintenance_rate := rate
        yearly_costs :=
          (List.range years.toNat).map (fun yr => pyRound (rc * rate * (21/20 : α) ^ yr))
        total_maintenance :=
          ((List.range years.toNat).map (fun yr => pyRound (rc * rate * (21/20 : α) ^ yr))).sum
        tco :=
          pyRound rc +
            ((List.range years.toNat).map (fun yr => pyRound (rc * rate * (21/20 : α) ^ yr))).sum }
  else none

/-- Realistic cost along the people curve of the pipeline, as a function
of the effort value. -/
noncomputable def rcE (D e wage mteam cap : ℝ) : ℝ :=
  realisticCostV e (peopleE D e) wage mteam cap

/-- Realistic cost of the pipeline for a given size. -/
noncomputable def rcK (K : ℚ) (p : EstParams) : ℝ :=
  rcE ((Dof p.complexity : ℚ) : ℝ) (effortK K p)
    ((p.avg_wage : ℚ) : ℝ) ((p.max_team_size : ℚ) : ℝ) ((p.max_schedule_months : ℚ) : ℝ)

/-- The result dictionary of `estimate_shiny_cost` (source lines
440-473), restricted to its numeric payload; `round(x, 2)` fields use
`pyRound2`. -/
structure EstResult where
  code_lines : ℚ
  effort_person_months : ℝ
  schedule_months : ℝ
  people_required : ℝ
  estimated_cost_usd : ℤ
  realistic_cost_usd : ℤ
  final_people : ℝ
  final_schedule_months : ℝ
  premium_multiplier : ℝ
  coordination_premium : ℝ
  average_monthly_cost : ℤ
  ci_low : ℤ
  ci_high : ℤ
  maintenance : Option (MaintOut ℝ)
  original_effort : ℝ
  original_people : ℝ
  original_schedule : ℝ
  natural_schedule : ℝ
  max_realistic_people : ℤ
  max_realistic_schedule : ℚ
  params : EstParams

/-- Assembles the result record from the effective size `K`; `clEcho` is
the `code_lines` argument, echoed verbatim into the result and used
nowhere else after `KLOC` has been computed. -/
noncomputable def buildEstimate (clEcho : ℚ) (K : ℚ) (p : EstParams) : EstResult :=
  let e : ℝ := effortK K p
  let ppl : ℝ := peopleK K p
  let wage : ℝ := ((p.avg_wage : ℚ) : ℝ)
  let mteam : ℝ := ((p.max_team_size : ℚ) : ℝ)
  let cap : ℝ := ((p.max_schedule_months : ℚ) : ℝ)
  let rc : ℝ := realisticCostV e ppl wage mteam cap
  { code_lines := clEcho
    effort_person_months := pyRound2 e
    schedule_months := pyRound2 (scheduleK K p)
    people_required := pyRound2 ppl
    estimated_cost_usd := pyRound (e * 12000)
    realistic_cost_usd := pyRound rc
    final_people := pyRound2 (finalPeopleV ppl mteam)
    final_schedule_months := pyRound2 (finalScheduleV e ppl mteam cap)
    premium_multiplier := premiumMultiplierV e ppl mteam cap
    coordination_premium := coordinationPremiumV e ppl mteam cap
    average_monthly_cost := avgMonthlyV rc (finalScheduleV e ppl mteam cap)
    ci_low := ciLowV rc
    ci_high := ciHighV rc
    maintenance := maintenanceOf rc ((p.maintenance_rate : ℚ) : ℝ) p.maintenance_years
    original_effort := pyRound2 e
    original_people := pyRound2 ppl
    original_schedule := pyRound2 (scheduleK K p)
    natural_schedule := pyRound2 (naturalScheduleV e ppl mteam)
    max_realistic_people := 8
    max_realistic_schedule := p.max_schedule_months
    params := p }

/-- The computation part of `estimate_shiny_cost` after validation. -/
noncomputable def computeEstimate (code_lines : ℚ)
    (mix : Option (List (String × ℚ))) (p : EstParams) : EstResult :=
  buildEstimate code_lines (KLOCof code_lines mix) p

/-- Embedding of `estimate_shiny_cost`: validation first (raising =
`Except.error`), then the deterministic computation. -/
noncomputable def estimate_shiny_cost (code_lines : ℚ)
    (mix : Option (List (String × ℚ))) (p : EstParams) : Except String EstResult :=
  match validate code_lines p with
  | some msg => Except.error msg
  | none => Except.ok (computeEstimate code_lines mix p)

/-- Erase the echoed `code_lines` field (for stating that two results
agree on everything else). -/
noncomputable def eraseCodeLines (r : EstResult) : EstResult :=
  { r with code_lines := 0 }

/-- Every registered comment marker is nonempty and starts with a
non-whitespace character. -/
def goodMarkers (pats : List (List Char)) : Bool :=
  pats.all (fun m =>
    match m with
    | [] => false
    | c :: _ => !pyWS c)

/-!
## Helper lemmas
-/

theorem pyRound_lower {α : Type} [LinearOrderedField α] [FloorRing α] (x : α) :
    ⌊x⌋ ≤ pyRound x := by
  unfold pyRound
  split_ifs <;> omega

theorem pyRound_upper {α : Type} [LinearOrderedField α] [FloorRing α] (x : α) :
    pyRound x ≤ ⌊x⌋ + 1 := by
  unfold pyRound
  split_ifs <;> omega

theorem pyRound_mono {α : Type} [LinearOrderedField α] [FloorRing α]
    {x y : α} (h : x ≤ y) : pyRound x ≤ pyRound y := by
  have hf : ⌊x⌋ ≤ ⌊y⌋ := Int.floor_mono h
  rcases lt_or_eq_of_le hf with hlt | heq
  · calc pyRound x ≤ ⌊x⌋ + 1 := pyRound_upper x
    _ ≤ ⌊y⌋ := by omega
    _ ≤ pyRound y := pyRound_lower y
  · have hfr : Int.fract x ≤ Int.fract y := by
      unfold Int.fract
      rw [heq]
      exact sub_le_sub_right h _
    unfold pyRound
    split_ifs <;> first | omega | linarith

theorem pyRound_intCast {α : Type} [LinearOrderedField α] [FloorRing α] (n : ℤ) :
    pyRound ((n : ℤ) : α) = n := by
  unfold pyRound
  rw [Int.fract_intCast, Int.floor_intCast]
  norm_num

theorem pyRound2_le_eight {α : Type} [LinearOrderedField α] [FloorRing α]
    {x : α} (h : x ≤ 8) : pyRound2 x ≤ 8 := by
  unfold pyRound2
  have h1 : x * 100 ≤ ((800 : ℤ) : α) := by
    push_cast
    linarith
  have h2 : pyRound (x * 100) ≤ 800 := by
    have h4 := pyRound_mono h1
    rwa [pyRound_intCast] at h4
  have h3 : ((pyRound (x * 100) : ℤ) : α) ≤ 800 := by
    exact_mod_cast h2
  linarith

theorem goodMarkers_comment (language : String) :
    goodMarkers (commentMarkersFor language) = true := by
  unfold commentMarkersFor
  by_cases h1 : language = "R"
  · rw [if_pos h1]; rfl
  rw [if_neg h1]
  by_cases h2 : language = "JavaScript"
  · rw [if_pos h2]; rfl
  rw [if_neg h2]
  by_cases h3 : language = "TypeScript"
  · rw [if_pos h3]; rfl
  rw [if_neg h3]
  by_cases h4 : language = "CSS"
  · rw [if_pos h4]; rfl
  rw [if_neg h4]
  by_cases h5 : language = "Sass"
  · rw [if_pos h5]; rfl
  rw [if_neg h5]
  by_cases h6 : language = "HTML"
  · rw [if_pos h6]; rfl
  rw [if_neg h6]
  by_cases h7 : language = "Python"
  · rw [if_pos h7]; rfl
  rw [if_neg h7]
  by_cases h8 : language = "Shell"
  · rw [if_pos h8]; rfl
  rw [if_neg h8]
  by_cases h9 : language = "SQL"
  · rw [if_pos h9]; rfl
  rw [if_neg h9]
  by_cases h10 : language = "C"
  · rw [if_pos h10]; rfl
  rw [if_neg h10]
  by_cases h11 : language = "C++"
  · rw [if_pos h11]; rfl
  rw [if_neg h11]
  by_cases h12 : language = "Java"
  · rw [if_pos h12]; rfl
  rw [if_neg h12]; rfl

theorem dropWhile_eq_nil_of_all {p : Char → Bool} :
    ∀ l : List Char, l.all p = true → l.dropWhile p = [] := by
  intro l hl
  induction l with
  | nil => rfl
  | cons a as ih =>
    rw [List.all_cons, Bool.and_eq_true] at hl
    rw [List.dropWhile_cons_of_pos hl.1]
    exact ih hl.2

theorem blank_not_comment (language : String) (l : List Char)
    (hb : isBlankLine l = true) : isCommentLine language l = false := by
  have hd : l.dropWhile pyWS = [] := dropWhile_eq_nil_of_all l hb
  have hg := goodMarkers_comment language
  unfold goodMarkers at hg
  rw [List.all_eq_true] at hg
  unfold isCommentLine matchesMarker
  rw [hd, List.any_eq_false]
  intro m hm
  have hgm := hg m hm
  cases m with
  | nil => exact absurd hgm (by decide)
  | cons c cs => simp [listStarts]

theorem length_filter_disjoint {β : Type} {p q : β → Bool}
    (h : ∀ x, p x = true → q x = false) :
    ∀ l : List β, (l.filter p).length + (l.filter q).length ≤ l.length := by
  intro l
  induction l with
  | nil => simp
  | cons a as ih =>
    by_cases hp : p a = true
    · have hq := h a hp
      simp only [List.filter_cons, hp, hq, if_true, Bool.false_eq_true, if_false,
        List.length_cons]
      omega
    · rw [Bool.not_eq_true] at hp
      by_cases hq : q a = true
      · simp only [List.filter_cons, hp, hq, Bool.false_eq_true, if_false, if_true,
          List.length_cons]
        omega
      · rw [Bool.not_eq_true] at hq
        simp only [List.filter_cons, hp, hq, Bool.false_eq_true, if_false,
          List.length_cons]
        omega

theorem counts_le (language : String) (lines : List (List Char)) :
    blankCount lines + commentCount language lines ≤ totalLines lines :=
  length_filter_disjoint (blank_not_comment language) lines

theorem codeCount_nonneg (language : String) (lines : List (List Char)) :
    0 ≤ codeCount language lines := by
  have h := counts_le language lines
  unfold codeCount
  omega

/-!
## Claims C4 and C9: line accounting
-/

/-- Claim C4: for every scanned file, the reported code-line count equals
`max(0, total - blanks - comments)` and is never negative — the source
computes the unclamped difference, but blank and comment classifications
are disjoint, so the difference already is its own clamp. -/
theorem claim_C4 (language : String) (lines : List (List Char)) :
    codeCount language lines
      = max 0 ((totalLines lines : ℤ) - blankCount lines - commentCount language lines)
    ∧ 0 ≤ codeCount language lines := by
  have h := codeCount_nonneg language lines
  constructor
  · rw [max_eq_right]
    · rfl
    · exact h
  · exact h

/-- Claim C9: blank (whitespace-only) lines and comment lines are
disjoint classes, because every registered comment pattern requires a
non-whitespace marker after optional leading whitespace; hence
`blanks + comments` never exceeds the total line count and the unclamped
difference `total - blanks - comments` is non-negative. -/
theorem claim_C9 (language : String) (l : List Char) (lines : List (List Char)) :
    (isBlankLine l && isCommentLine language l) = false
    ∧ blankCount lines + commentCount language lines ≤ totalLines lines
    ∧ 0 ≤ codeCount language lines := by
  refine ⟨?_, counts_le language lines, codeCount_nonneg language lines⟩
  by_cases hb : isBlankLine l = true
  · rw [hb, blank_not_comment language l hb]
    rfl
  · rw [Bool.not_eq_true] at hb
    rw [hb]
    rfl

/-!
## Claim C8: unreadable files in the binary probe
-/

/-- Claim C8 counterexample: `.txt` is not in the binary-extension set,
and when the 8KB probe read fails (`none`), `is_binary_file` returns
`false` — the file is treated as NOT binary, contradicting the claimed
"treated as binary (conservative skip)". -/
theorem claim_C8_counterexample :
    is_binary_file ".txt" none = false
    ∧ BINARY_EXTENSIONS.contains (strLower ".txt") = false := by
  constructor <;> rfl

/-- Claim C8 (amended): for every file whose extension is not in the
binary-extension set, if reading the file for the 8KB null-byte probe
fails, the classifier treats the file as NOT binary (it returns `false`
from the exception handler) rather than raising. -/
theorem claim_C8 (ext : String)
    (h : BINARY_EXTENSIONS.contains (strLower ext) = false) :
    is_binary_file ext none = false := by
  unfold is_binary_file
  rw [h]
  rfl

theorem claim_C8_witness :
    BINARY_EXTENSIONS.contains (strLower ".xyz") = false
    ∧ is_binary_file ".xyz" none = false :=
  ⟨by rfl, claim_C8 ".xyz" (by rfl)⟩

/-!
## Claim C1: premium tiers and realistic cost
-/

/-- Claim C1: when the natural schedule exceeds `max_schedule_months`,
the premium multiplier is `premiumTier` of the compression ratio
`natural/capped` with inclusive lower-bound tiers (`>=4` gives `2.0`,
`>=3` gives `1.7`, `>=2` gives `1.4`, otherwise `1.2`; a ratio of
exactly `4` selects `2.0`), and the realistic cost is
`effort * (avg_wage/12) * premium`; otherwise the realistic cost uses
the coordination premium, `1.1` iff the final team size is at least 6. -/
theorem claim_C1 {α : Type} [LinearOrderedField α] (e people wage mteam cap : α)
    (hcap : 0 < cap) :
    (cap < naturalScheduleV e people mteam →
      premiumMultiplierV e people mteam cap
          = premiumTier (naturalScheduleV e people mteam / cap)
        ∧ realisticCostV e people wage mteam cap
          = e * (wage / 12) * premiumTier (naturalScheduleV e people mteam / cap))
    ∧ (naturalScheduleV e people mteam ≤ cap →
      realisticCostV e people wage mteam cap
          = e * (wage / 12) * (if 6 ≤ finalPeopleV people mteam then 11/10 else 1)
        ∧ coordinationPremiumV e people mteam cap
          = (if 6 ≤ finalPeopleV people mteam then 11/10 else 1))
    ∧ premiumTier (4 : α) = 2
    ∧ (∀ r : α, 4 ≤ r → premiumTier r = 2)
    ∧ (∀ r : α, 3 ≤ r → r < 4 → premiumTier r = 17/10)
    ∧ (∀ r : α, 2 ≤ r → r < 3 → premiumTier r = 7/5)
    ∧ (∀ r : α, r < 2 → premiumTier r = 6/5) := by
  refine ⟨?_, ?_, ?_, ?_, ?_, ?_, ?_⟩
  · intro h
    have hmin : finalScheduleV e people mteam cap = cap :=
      min_eq_right (le_of_lt h)
    have hratio : compressionRatioV e people mteam cap
        = naturalScheduleV e people mteam / cap := by
      unfold compressionRatioV
      rw [hmin, if_pos hcap]
    constructor
    · unfold premiumMultiplierV
      rw [if_pos h, hratio]
    · unfold realisticCostV premiumMultiplierV
      rw [if_pos h, if_pos h, hratio]
  · intro h
    have hn : ¬ cap < naturalScheduleV e people mteam := not_lt.mpr h
    constructor
    · unfold realisticCostV coordinationPremiumV
      rw [if_neg hn, if_neg hn]
    · unfold coordinationPremiumV
      rw [if_neg hn]
  · unfold premiumTier
    rw [if_pos (le_refl (4 : α))]
  · intro r h
    unfold premiumTier
    rw [if_pos h]
  · intro r h3 h4
    unfold premiumTier
    rw [if_neg (by linarith), if_pos h3]
  · intro r h2 h3
    unfold premiumTier
    rw [if_neg (by linarith), if_neg (by linarith), if_pos h2]
  · intro r h2
    unfold premiumTier
    rw [if_neg (by linarith), if_neg (by linarith), if_neg (by linarith)]

theorem claim_C1_witness :
    (0 : ℚ) < 2
    ∧ (((2 : ℚ) < naturalScheduleV 100 10 5 →
      premiumMultiplierV (100 : ℚ) 10 5 2
          = premiumTier (naturalScheduleV (100 : ℚ) 10 5 / 2)
        ∧ realisticCostV (100 : ℚ) 10 120000 5 2
          = 100 * ((120000 : ℚ) / 12) * premiumTier (naturalScheduleV (100 : ℚ) 10 5 / 2))
    ∧ (naturalScheduleV (100 : ℚ) 10 5 ≤ 2 →
      realisticCostV (100 : ℚ) 10 120000 5 2
          = 100 * ((120000 : ℚ) / 12) * (if 6 ≤ finalPeopleV (10 : ℚ) 5 then 11/10 else 1)
        ∧ coordinationPremiumV (100 : ℚ) 10 5 2
          = (if 6 ≤ finalPeopleV (10 : ℚ) 5 then 11/10 else 1))
    ∧ premiumTier (4 : ℚ) = 2
    ∧ (∀ r : ℚ, 4 ≤ r → premiumTier r = 2)
    ∧ (∀ r : ℚ, 3 ≤ r → r < 4 → premiumTier r = 17/10)
    ∧ (∀ r : ℚ, 2 ≤ r → r < 3 → premiumTier r = 7/5)
    ∧ (∀ r : ℚ, r < 2 → premiumTier r = 6/5)) :=
  ⟨by norm_num, claim_C1 100 10 120000 5 2 (by norm_num)⟩

/-!
## Claim C2: the team-size cap
-/

/-- Claim C2: for every call, the final team size is
`min(nominal_people, max_team_size, 8)`, and the reported
(2-decimal-rounded) `final_people` field never exceeds 8, however large
the caller-supplied `max_team_size` is. -/
theorem claim_C2 (cl : ℚ) (mix : Option (List (String × ℚ))) (p : EstParams) :
    finalPeopleV (peopleK (KLOCof cl mix) p) ((p.max_team_size : ℚ) : ℝ)
        = min (min (peopleK (KLOCof cl mix) p) ((p.max_team_size : ℚ) : ℝ)) 8
    ∧ (computeEstimate cl mix p).final_people
        = pyRound2 (finalPeopleV (peopleK (KLOCof cl mix) p) ((p.max_team_size : ℚ) : ℝ))
    ∧ finalPeopleV (peopleK (KLOCof cl mix) p) ((p.max_team_size : ℚ) : ℝ) ≤ 8
    ∧ (computeEstimate cl mix p).final_people ≤ 8
    ∧ (∀ r, estimate_shiny_cost cl mix p = Except.ok r → r.final_people ≤ 8) := by
  have h8 : finalPeopleV (peopleK (KLOCof cl mix) p) ((p.max_team_size : ℚ) : ℝ) ≤ 8 := by
    unfold finalPeopleV
    exact min_le_right _ _
  have hfield : (computeEstimate cl mix p).final_people ≤ 8 := by
    show pyRound2 (finalPeopleV (peopleK (KLOCof cl mix) p) ((p.max_team_size : ℚ) : ℝ)) ≤ 8
    exact pyRound2_le_eight h8
  refine ⟨rfl, rfl, h8, hfield, ?_⟩
  intro r hr
  unfold estimate_shiny_cost at hr
  cases hval : validate cl p with
  | some msg =>
    rw [hval] at hr
    exact Except.noConfusion hr
  | none =>
    rw [hval] at hr
    injection hr with h
    rw [← h]
    exact hfield

/-!
## Claim C7: the confidence interval
-/

/-- Claim C7 counterexample: a call reaching realistic cost `1` (effort
`1`, nominal people `1`, wage `12`, team cap `5`, schedule cap `24`)
reports `ci_low = round(0.70) = 1`, which differs from
`0.70 * realistic_cost = 0.7`: the interval bounds are rounded, not
exact. -/
theorem claim_C7_counterexample :
    ((ciLowV (realisticCostV (1 : ℚ) 1 12 5 24) : ℤ) : ℚ)
      ≠ realisticCostV (1 : ℚ) 1 12 5 24 * (7/10) := by
  norm_num [realisticCostV, naturalScheduleV, finalPeopleV, unconstrainedPeopleV,
    coordinationPremiumV, premiumMultiplierV, compressionRatioV, finalScheduleV,
    ciLowV, pyRound, Int.fract]

/-- Claim C7 (amended): for every estimate, the confidence interval is
`[round(0.70 * realistic_cost), round(1.30 * realistic_cost)]` — the
fixed ±30% band of the unrounded realistic cost, rounded to whole
currency units. -/
theorem claim_C7 (cl : ℚ) (mix : Option (List (String × ℚ))) (p : EstParams) :
    (computeEstimate cl mix p).ci_low
        = pyRound (rcK (KLOCof cl mix) p * (7/10))
    ∧ (computeEstimate cl mix p).ci_high
        = pyRound (rcK (KLOCof cl mix) p * (13/10))
    ∧ (∀ r, estimate_shiny_cost cl mix p = Except.ok r →
        r.ci_low = pyRound (rcK (KLOCof cl mix) p * (7/10))
        ∧ r.ci_high = pyRound (rcK (KLOCof cl mix) p * (13/10))) := by
  refine ⟨rfl, rfl, ?_⟩
  intro r hr
  unfold estimate_shiny_cost at hr
  cases hval : validate cl p with
  | some msg =>
    rw [hval] at hr
    exact Except.noConfusion hr
  | none =>
    rw [hval] at hr
    injection hr with h
    rw [← h]
    exact ⟨rfl, rfl⟩

/-!
## Claim C5: the maintenance projection
-/

/-- Claim C5 counterexample: with realistic cost `100.5` (effort `1`,
wage `1206`), `maintenance_rate = 0` and one maintenance year,
`tco - total_maintenance = round(100.5) = 100`, not the realistic cost
`100.5`: TCO adds the ROUNDED realistic cost. -/
theorem claim_C5_counterexample :
    (maintenanceOf (realisticCostV (1 : ℚ) 1 1206 5 24) 0 1).map
        (fun m => ((m.tco : ℤ) : ℚ) - ((m.total_maintenance : ℤ) : ℚ))
      ≠ some (realisticCostV (1 : ℚ) 1 1206 5 24) := by
  norm_num [realisticCostV, naturalScheduleV, finalPeopleV, unconstrainedPeopleV,
    coordinationPremiumV, premiumMultiplierV, compressionRatioV, finalScheduleV,
    maintenanceOf, pyRound, Int.fract]

/-- Claim C5 (amended): when `maintenance_years > 0` the projection has
`annual = realistic_cost * rate`, yearly cost
`round(annual * 1.05^y)` for `y` in `[0, years)`, total maintenance
their sum, and `TCO = round(realistic_cost) + total maintenance`
(which equals `realistic_cost + total` whenever the realistic cost is a
whole number, as in the claimed `100000`/`rate 0.20`/3-year instance,
whose total is `20000 + 21000 + 22050 = 63050` and TCO `163050`); when
`maintenance_years = 0`, no projection is produced. -/
theorem claim_C5 {α : Type} [LinearOrderedField α] [FloorRing α]
    (rc rate : α) (years : ℤ) :
    ((maintenanceOf rc rate years).map (fun m => m.annual_maintenance)
        = if 0 < years then some (pyRound (rc * rate)) else none)
    ∧ ((maintenanceOf rc rate years).map (fun m => m.yearly_costs)
        = if 0 < years then
            some ((List.range years.toNat).map
              (fun yr => pyRound (rc * rate * (21/20 : α) ^ yr)))
          else none)
    ∧ ((maintenanceOf rc rate years).map (fun m => m.total_maintenance)
        = if 0 < years then
            some (((List.range years.toNat).map
              (fun yr => pyRound (rc * rate * (21/20 : α) ^ yr))).sum)
          else none)
    ∧ ((maintenanceOf rc rate years).map (fun m => m.tco)
        = if 0 < years then
            some (pyRound rc + ((List.range years.toNat).map
              (fun yr => pyRound (rc * rate * (21/20 : α) ^ yr))).sum)
          else none)
    ∧ (maintenanceOf (100000 : ℚ) (1/5) 3).map (fun m => m.total_maintenance)
        = some 63050
    ∧ (maintenanceOf (100000 : ℚ) (1/5) 3).map (fun m => m.tco) = some 163050 := by
  have key : maintenanceOf (100000 : ℚ) (1/5) 3
      = some { annual_maintenance := 20000, maintenance_years := 3, maintenance_rate := 1/5,
               yearly_costs := [20000, 21000, 22050], total_maintenance := 63050,
               tco := 163050 } := by
    have h3 : List.range (3 : ℤ).toNat = [0, 1, 2] := rfl
    unfold maintenanceOf
    rw [if_pos (by norm_num : (0 : ℤ) < 3), h3]
    simp only [List.map_cons, List.map_nil, List.sum_cons, List.sum_nil]
    norm_num [pyRound, Int.fract]
  refine ⟨?_, ?_, ?_, ?_, ?_, ?_⟩
  · unfold maintenanceOf
    by_cases hy : 0 < years
    · rw [if_pos hy, if_pos hy]
      rfl
    · rw [if_neg hy, if_neg hy]
      rfl
  · unfold maintenanceOf
    by_cases hy : 0 < years
    · rw [if_pos hy, if_pos hy]
      rfl
    · rw [if_neg hy, if_neg hy]
      rfl
  · unfold maintenanceOf
    by_cases hy : 0 < years
    · rw [if_pos hy, if_pos hy]
      rfl
    · rw [if_neg hy, if_neg hy]
      rfl
  · unfold maintenanceOf
    by_cases hy : 0 < years
    · rw [if_pos hy, if_pos hy]
      rfl
    · rw [if_neg hy, if_neg hy]
      rfl
  · rw [key]; rfl
  · rw [key]; rfl

/-!
## Claim C3: input validation
-/

theorem validate_eq_none_iff (cl : ℚ) (p : EstParams) :
    validate cl p = none ↔
      (0 ≤ cl
      ∧ (p.complexity = "low" ∨ p.complexity = "medium" ∨ p.complexity = "high")
      ∧ (1 ≤ p.team_experience ∧ p.team_experience ≤ 5)
      ∧ (7/10 ≤ p.reuse_factor ∧ p.reuse_factor ≤ 13/10)
      ∧ (4/5 ≤ p.tool_support ∧ p.tool_support ≤ 6/5)
      ∧ (41/50 ≤ p.rely ∧ p.rely ≤ 63/50)
      ∧ (73/100 ≤ p.cplx ∧ p.cplx ≤ 87/50)
      ∧ (19/20 ≤ p.ruse ∧ p.ruse ≤ 31/25)
      ∧ (81/100 ≤ p.pcon ∧ p.pcon ≤ 129/100)
      ∧ (81/100 ≤ p.apex ∧ p.apex ≤ 61/50)
      ∧ (0 ≤ p.maintenance_rate ∧ p.maintenance_rate ≤ 1)
      ∧ 0 ≤ p.maintenance_years) := by
  unfold validate
  constructor
  · intro h
    by_cases h1 : cl < 0
    · rw [if_pos h1] at h; exact Option.noConfusion h
    rw [if_neg h1] at h
    by_cases h2 : ¬(p.complexity = "low" ∨ p.complexity = "medium" ∨ p.complexity = "high")
    · rw [if_pos h2] at h; exact Option.noConfusion h
    rw [if_neg h2] at h
    by_cases h3 : ¬(1 ≤ p.team_experience ∧ p.team_experience ≤ 5)
    · rw [if_pos h3] at h; exact Option.noConfusion h
    rw [if_neg h3] at h
    by_cases h4 : ¬(7/10 ≤ p.reuse_factor ∧ p.reuse_factor ≤ 13/10)
    · rw [if_pos h4] at h; exact Option.noConfusion h
    rw [if_neg h4] at h
    by_cases h5 : ¬(4/5 ≤ p.tool_support ∧ p.tool_support ≤ 6/5)
    · rw [if_pos h5] at h; exact Option.noConfusion h
    rw [if_neg h5] at h
    by_cases h6 : ¬(41/50 ≤ p.rely ∧ p.rely ≤ 63/50)
    · rw [if_pos h6] at h; exact Option.noConfusion h
    rw [if_neg h6] at h
    by_cases h7 : ¬(73/100 ≤ p.cplx ∧ p.cplx ≤ 87/50)
    · rw [if_pos h7] at h; exact Option.noConfusion h
    rw [if_neg h7] at h
    by_cases h8 : ¬(19/20 ≤ p.ruse ∧ p.ruse ≤ 31/25)
    · rw [if_pos h8] at h; exact Option.noConfusion h
    rw [if_neg h8] at h
    by_cases h9 : ¬(81/100 ≤ p.pcon ∧ p.pcon ≤ 129/100)
    · rw [if_pos h9] at h; exact Option.noConfusion h
    rw [if_neg h9] at h
    by_cases h10 : ¬(81/100 ≤ p.apex ∧ p.apex ≤ 61/50)
    · rw [if_pos h10] at h; exact Option.noConfusion h
    rw [if_neg h10] at h
    by_cases h11 : ¬(0 ≤ p.maintenance_rate ∧ p.maintenance_rate ≤ 1)
    · rw [if_pos h11] at h; exact Option.noConfusion h
    rw [if_neg h11] at h
    by_cases h12 : p.maintenance_years < 0
    · rw [if_pos h12] at h; exact Option.noConfusion h
    exact ⟨not_lt.mp h1, not_not.mp h2, not_not.mp h3, not_not.mp h4, not_not.mp h5,
      not_not.mp h6, not_not.mp h7, not_not.mp h8, not_not.mp h9, not_not.mp h10,
      not_not.mp h11, not_lt.mp h12⟩
  · intro h
    obtain ⟨hc, hcomp, hte, hru, hts, hrely, hcplx, hruse, hpcon, hapex, hrate, hyrs⟩ := h
    rw [if_neg (not_lt.mpr hc), if_neg (not_not_intro hcomp), if_neg (not_not_intro hte),
      if_neg (not_not_intro hru), if_neg (not_not_intro hts), if_neg (not_not_intro hrely),
      if_neg (not_not_intro hcplx), if_neg (not_not_intro hruse), if_neg (not_not_intro hpcon),
      if_neg (not_not_intro hapex), if_neg (not_not_intro hrate), if_neg (not_lt.mpr hyrs)]

theorem estimate_ok_of (cl : ℚ) (mix : Option (List (String × ℚ))) (p : EstParams)
    (h : validate cl p = none) :
    estimate_shiny_cost cl mix p = Except.ok (computeEstimate cl mix p) := by
  unfold estimate_shiny_cost
  rw [h]

theorem estimate_error_of (cl : ℚ) (mix : Option (List (String × ℚ))) (p : EstParams)
    (msg : String) (h : validate cl p = some msg) :
    estimate_shiny_cost cl mix p = Except.error msg := by
  unfold estimate_shiny_cost
  rw [h]

theorem exists_ok_iff (cl : ℚ) (mix : Option (List (String × ℚ))) (p : EstParams) :
    (∃ r, estimate_shiny_cost cl mix p = Except.ok r) ↔ validate cl p = none := by
  constructor
  · rintro ⟨r, hr⟩
    cases hv : validate cl p with
    | none => rfl
    | some msg =>
      rw [estimate_error_of cl mix p msg hv] at hr
      exact Except.noConfusion hr
  · intro h
    exact ⟨_, estimate_ok_of cl mix p h⟩

/-- Claim C3 counterexample: a call with `avg_wage = -1` (and all
checked parameters in range) succeeds and returns a result, instead of
failing fast: `avg_wage`, `max_team_size` and `max_schedule_months` are
never validated. -/
theorem claim_C3_counterexample :
    ∃ r, estimate_shiny_cost 1000 none
        { complexity := "medium", team_experience := 4, reuse_factor := 1, tool_support := 1,
          avg_wage := -1, max_team_size := 5, max_schedule_months := 24,
          rely := 1, cplx := 1, ruse := 1, pcon := 1, apex := 1,
          maintenance_rate := 1/5, maintenance_years := 0 } = Except.ok r := by
  refine ⟨_, estimate_ok_of _ _ _ ?_⟩
  apply (validate_eq_none_iff _ _).mpr
  refine ⟨by norm_num, Or.inr (Or.inl rfl), ?_, ?_, ?_, ?_, ?_, ?_, ?_, ?_, ?_, ?_⟩ <;>
    norm_num

/-- Claim C3 (amended): the estimator fails with a validation error
exactly when one of the CHECKED inputs is out of range — the code-line
count, `complexity`, `team_experience`, `reuse_factor`, `tool_support`,
`rely`, `cplx`, `ruse`, `pcon`, `apex`, `maintenance_rate`,
`maintenance_years` — and `avg_wage`, `max_team_size`,
`max_schedule_months` are NOT validated: changing them never affects
whether the call succeeds. -/
theorem claim_C3 (cl : ℚ) (mix : Option (List (String × ℚ))) (p : EstParams) :
    ((∃ r, estimate_shiny_cost cl mix p = Except.ok r) ↔
      (0 ≤ cl
      ∧ (p.complexity = "low" ∨ p.complexity = "medium" ∨ p.complexity = "high")
      ∧ (1 ≤ p.team_experience ∧ p.team_experience ≤ 5)
      ∧ (7/10 ≤ p.reuse_factor ∧ p.reuse_factor ≤ 13/10)
      ∧ (4/5 ≤ p.tool_support ∧ p.tool_support ≤ 6/5)
      ∧ (41/50 ≤ p.rely ∧ p.rely ≤ 63/50)
      ∧ (73/100 ≤ p.cplx ∧ p.cplx ≤ 87/50)
      ∧ (19/20 ≤ p.ruse ∧ p.ruse ≤ 31/25)
      ∧ (81/100 ≤ p.pcon ∧ p.pcon ≤ 129/100)
      ∧ (81/100 ≤ p.apex ∧ p.apex ≤ 61/50)
      ∧ (0 ≤ p.maintenance_rate ∧ p.maintenance_rate ≤ 1)
      ∧ 0 ≤ p.maintenance_years))
    ∧ (∀ w mt ms : ℚ,
        (∃ r, estimate_shiny_cost cl mix
            { p with avg_wage := w, max_team_size := mt, max_schedule_months := ms }
          = Except.ok r)
        ↔ (∃ r, estimate_shiny_cost cl mix p = Except.ok r)) := by
  constructor
  · rw [exists_ok_iff, validate_eq_none_iff]
  · intro w mt ms
    rw [exists_ok_iff, exists_ok_iff, validate_eq_none_iff, validate_eq_none_iff]

/-!
## Claim C6: monotonicity of the realistic cost in the code-line count

Helper lemmas about the effort/schedule/people curve and the
realistic-constraints layer along it.
-/

theorem Bof_bounds (c : String) : 51/50 ≤ Bof c ∧ Bof c ≤ 59/50 := by
  unfold Bof
  split_ifs <;> norm_num

theorem Dof_bounds (c : String) : 0 < Dof c ∧ Dof c < 1 := by
  unfold Dof Bof
  split_ifs <;> norm_num

theorem EM_total_pos (p : EstParams) (hte : p.team_experience ≤ 5)
    (hru : 7/10 ≤ p.reuse_factor) (hts : 4/5 ≤ p.tool_support)
    (hrely : 41/50 ≤ p.rely) (hcplx : 73/100 ≤ p.cplx) (hruse : 19/20 ≤ p.ruse)
    (hpcon : 81/100 ≤ p.pcon) (hapex : 81/100 ≤ p.apex) :
    0 < EM_total p := by
  unfold EM_total EM_experience
  have h1 : (0 : ℚ) < 12/10 - 5/100 * p.team_experience := by linarith
  have h2 : (0 : ℚ) < p.reuse_factor := by linarith
  have h3 : (0 : ℚ) < p.tool_support := by linarith
  have h4 : (0 : ℚ) < p.rely := by linarith
  have h5 : (0 : ℚ) < p.cplx := by linarith
  have h6 : (0 : ℚ) < p.ruse := by linarith
  have h7 : (0 : ℚ) < p.pcon := by linarith
  have h8 : (0 : ℚ) < p.apex := by linarith
  have h9 : (0 : ℚ) < 85/100 := by norm_num
  exact mul_pos (mul_pos (mul_pos (mul_pos (mul_pos (mul_pos (mul_pos
    (mul_pos h1 h2) h3) h9) h4) h5) h6) h7) h8

theorem Bof_cast_nonneg (c : String) : (0 : ℝ) ≤ ((Bof c : ℚ) : ℝ) := by
  have h := (Bof_bounds c).1
  have h2 : (0 : ℚ) ≤ Bof c := by linarith
  exact_mod_cast h2

theorem effortK_nonneg (K : ℚ) (p : EstParams) (hK : 0 ≤ K)
    (hEM : 0 ≤ EM_total p) : 0 ≤ effortK K p := by
  unfold effortK baseEffortK
  have h1 : (0 : ℝ) ≤ ((K : ℚ) : ℝ) := by exact_mod_cast hK
  have h2 : (0 : ℝ) ≤ ((K : ℚ) : ℝ) ^ ((Bof p.complexity : ℚ) : ℝ) :=
    Real.rpow_nonneg h1 _
  have h3 : (0 : ℝ) ≤ ((EM_total p : ℚ) : ℝ) := by exact_mod_cast hEM
  exact mul_nonneg (mul_nonneg (by norm_num) h2) h3

theorem effortK_mono (K1 K2 : ℚ) (p : EstParams) (h0 : 0 ≤ K1) (h12 : K1 ≤ K2)
    (hEM : 0 ≤ EM_total p) : effortK K1 p ≤ effortK K2 p := by
  unfold effortK baseEffortK
  have h2 : ((K1 : ℚ) : ℝ) ^ ((Bof p.complexity : ℚ) : ℝ)
      ≤ ((K2 : ℚ) : ℝ) ^ ((Bof p.complexity : ℚ) : ℝ) :=
    Real.rpow_le_rpow (by exact_mod_cast h0) (by exact_mod_cast h12)
      (Bof_cast_nonneg p.complexity)
  have h3 : (0 : ℝ) ≤ ((EM_total p : ℚ) : ℝ) := by exact_mod_cast hEM
  exact mul_le_mul_of_nonneg_right
    (mul_le_mul_of_nonneg_left h2 (by norm_num)) h3

theorem schedE_pos {D e : ℝ} (he : 0 < e) : 0 < schedE D e :=
  mul_pos (by norm_num) (Real.rpow_pos_of_pos he D)

theorem schedE_mono (D : ℝ) (hD : 0 ≤ D) {e1 e2 : ℝ} (h0 : 0 ≤ e1) (h12 : e1 ≤ e2) :
    schedE D e1 ≤ schedE D e2 := by
  unfold schedE
  exact mul_le_mul_of_nonneg_left (Real.rpow_le_rpow h0 h12 hD) (by norm_num)

theorem peopleE_nonneg (D : ℝ) {e : ℝ} (he : 0 ≤ e) : 0 ≤ peopleE D e := by
  unfold peopleE
  split_ifs with h
  · exact div_nonneg he (le_of_lt h)
  · exact he

theorem peopleE_zero (D : ℝ) (hD : D ≠ 0) : peopleE D 0 = 0 := by
  unfold peopleE schedE
  rw [Real.zero_rpow hD]
  norm_num

theorem peopleE_pos (D : ℝ) {e : ℝ} (he : 0 < e) : 0 < peopleE D e := by
  unfold peopleE
  rw [if_pos (schedE_pos he)]
  exact div_pos he (schedE_pos he)

theorem peopleE_eq (D : ℝ) {e : ℝ} (he : 0 < e) :
    peopleE D e = e ^ ((1 : ℝ) - D) / (7/2) := by
  unfold peopleE
  rw [if_pos (schedE_pos he)]
  unfold schedE
  rw [Real.rpow_sub he, Real.rpow_one]
  have hne : e ^ D ≠ 0 := ne_of_gt (Real.rpow_pos_of_pos he D)
  field_simp
  ring

theorem peopleE_mono (D : ℝ) (hD0 : 0 < D) (hD1 : D < 1) {e1 e2 : ℝ}
    (h0 : 0 ≤ e1) (h12 : e1 ≤ e2) : peopleE D e1 ≤ peopleE D e2 := by
  rcases eq_or_lt_of_le h0 with h | h
  · rw [← h, peopleE_zero D (ne_of_gt hD0)]
    exact peopleE_nonneg D (le_trans h0 h12)
  · have h2 : 0 < e2 := lt_of_lt_of_le h h12
    rw [peopleE_eq D h, peopleE_eq D h2]
    exact (div_le_div_right (by norm_num)).mpr
      (Real.rpow_le_rpow (le_of_lt h) h12 (by linarith))

theorem finalPeopleV_pos {α : Type} [LinearOrderedField α] {people m : α}
    (hp : 0 < people) (hm : 0 < m) : 0 < finalPeopleV people m := by
  unfold finalPeopleV unconstrainedPeopleV
  exact lt_min (lt_min hp hm) (by norm_num)

theorem finalPeopleV_mono {α : Type} [LinearOrderedField α] {p1 p2 m : α}
    (h : p1 ≤ p2) : finalPeopleV p1 m ≤ finalPeopleV p2 m := by
  unfold finalPeopleV unconstrainedPeopleV
  exact min_le_min (min_le_min h (le_refl m)) (le_refl _)

theorem div_min_eq_max {α : Type} [LinearOrderedField α] (e x y : α)
    (he : 0 ≤ e) (hx : 0 < x) (hy : 0 < y) :
    e / min x y = max (e / x) (e / y) := by
  rcases le_total x y with h | h
  · rw [min_eq_left h, max_eq_left]
    rw [div_eq_mul_inv, div_eq_mul_inv]
    exact mul_le_mul_of_nonneg_left (inv_le_inv_of_le hx h) he
  · rw [min_eq_right h, max_eq_right]
    rw [div_eq_mul_inv, div_eq_mul_inv]
    exact mul_le_mul_of_nonneg_left (inv_le_inv_of_le hy h) he

theorem naturalV_nonneg {α : Type} [LinearOrderedField α] (e people m : α)
    (he : 0 ≤ e) : 0 ≤ naturalScheduleV e people m := by
  unfold naturalScheduleV
  split_ifs with h
  · exact div_nonneg he (le_of_lt h)
  · exact he

theorem e_div_peopleE (D : ℝ) {e : ℝ} (he : 0 < e) :
    e / peopleE D e = schedE D e := by
  unfold peopleE
  rw [if_pos (schedE_pos he)]
  have hs := schedE_pos (D := D) he
  have hne : schedE D e ≠ 0 := ne_of_gt hs
  have hene : e ≠ 0 := ne_of_gt he
  field_simp

theorem naturalV_eq (D : ℝ) {e : ℝ} (m : ℝ) (he : 0 < e) (hm : 0 < m) :
    naturalScheduleV e (peopleE D e) m
      = max (schedE D e) (max (e / m) (e / 8)) := by
  have hp := peopleE_pos D he
  have hf : 0 < finalPeopleV (peopleE D e) m := finalPeopleV_pos hp hm
  unfold naturalScheduleV
  rw [if_pos hf]
  unfold finalPeopleV unconstrainedPeopleV
  rw [div_min_eq_max _ _ _ (le_of_lt he) (lt_min hp hm) (by norm_num),
    div_min_eq_max _ _ _ (le_of_lt he) hp hm, e_div_peopleE D he, max_assoc]

theorem naturalV_zero (D : ℝ) (m : ℝ) (hD : D ≠ 0) (hm : 0 < m) :
    naturalScheduleV (0 : ℝ) (peopleE D 0) m = 0 := by
  rw [peopleE_zero D hD]
  have hf : finalPeopleV (0 : ℝ) m = 0 := by
    unfold finalPeopleV unconstrainedPeopleV
    rw [min_eq_left (le_of_lt hm), min_eq_left (by norm_num)]
  unfold naturalScheduleV
  rw [hf, if_neg (lt_irrefl 0)]

theorem naturalV_mono (D : ℝ) (hD0 : 0 < D) (m : ℝ) (hm : 0 < m)
    {e1 e2 : ℝ} (h0 : 0 ≤ e1) (h12 : e1 ≤ e2) :
    naturalScheduleV e1 (peopleE D e1) m ≤ naturalScheduleV e2 (peopleE D e2) m := by
  rcases eq_or_lt_of_le h0 with h | h
  · rw [← h, naturalV_zero D m (ne_of_gt hD0) hm]
    exact naturalV_nonneg _ _ _ (le_trans h0 h12)
  · have h2 : 0 < e2 := lt_of_lt_of_le h h12
    rw [naturalV_eq D m h hm, naturalV_eq D m h2 hm]
    refine max_le_max (schedE_mono D (le_of_lt hD0) (le_of_lt h) h12) (max_le_max ?_ ?_)
    · exact (div_le_div_right hm).mpr h12
    · exact (div_le_div_right (by norm_num)).mpr h12

theorem premiumTier_mono {α : Type} [LinearOrderedField α] {r1 r2 : α}
    (h : r1 ≤ r2) : premiumTier r1 ≤ premiumTier r2 := by
  unfold premiumTier
  split_ifs <;> linarith

theorem premiumTier_ge {α : Type} [LinearOrderedField α] (r : α) :
    6/5 ≤ premiumTier r := by
  unfold premiumTier
  split_ifs <;> norm_num

theorem ratio_eq_div {α : Type} [LinearOrderedField α] {e people m cap : α}
    (hcap : 0 < cap) (h : cap < naturalScheduleV e people m) :
    compressionRatioV e people m cap = naturalScheduleV e people m / cap := by
  unfold compressionRatioV finalScheduleV
  rw [min_eq_right (le_of_lt h), if_pos hcap]

theorem rcE_premium (D w m cap : ℝ) (hcap : 0 < cap) {e : ℝ}
    (h : cap < naturalScheduleV e (peopleE D e) m) :
    rcE D e w m cap
      = e * (w / 12) * premiumTier (naturalScheduleV e (peopleE D e) m / cap) := by
  unfold rcE realisticCostV premiumMultiplierV
  rw [if_pos h, if_pos h, ratio_eq_div hcap h]

theorem rcE_coord (D w m cap : ℝ) {e : ℝ}
    (h : ¬ cap < naturalScheduleV e (peopleE D e) m) :
    rcE D e w m cap
      = e * (w / 12) * coordinationPremiumV e (peopleE D e) m cap := by
  unfold rcE realisticCostV
  rw [if_neg h]

theorem coordV_le {α : Type} [LinearOrderedField α] {e people m cap : α}
    (h : ¬ cap < naturalScheduleV e people m) :
    coordinationPremiumV e people m cap ≤ 11/10 := by
  unfold coordinationPremiumV
  rw [if_neg h]
  split_ifs <;> norm_num

theorem coordV_nonneg {α : Type} [LinearOrderedField α] (e people m cap : α) :
    0 ≤ coordinationPremiumV e people m cap := by
  unfold coordinationPremiumV
  split_ifs <;> norm_num

theorem rcE_mono (D w m cap : ℝ) (hD0 : 0 < D) (hD1 : D < 1) (hw : 0 < w)
    (hm : 0 < m) (hcap : 0 < cap) {e1 e2 : ℝ} (h0 : 0 ≤ e1) (h12 : e1 ≤ e2) :
    rcE D e1 w m cap ≤ rcE D e2 w m cap := by
  have hnm : naturalScheduleV e1 (peopleE D e1) m ≤ naturalScheduleV e2 (peopleE D e2) m :=
    naturalV_mono D hD0 m hm h0 h12
  have he2 : 0 ≤ e2 := le_trans h0 h12
  have hw12 : (0 : ℝ) ≤ w / 12 := by positivity
  have hbase : e1 * (w / 12) ≤ e2 * (w / 12) := mul_le_mul_of_nonneg_right h12 hw12
  have hbase2 : 0 ≤ e2 * (w / 12) := mul_nonneg he2 hw12
  by_cases hb2 : cap < naturalScheduleV e2 (peopleE D e2) m
  · by_cases hb1 : cap < naturalScheduleV e1 (peopleE D e1) m
    · rw [rcE_premium D w m cap hcap hb1, rcE_premium D w m cap hcap hb2]
      have ht : premiumTier (naturalScheduleV e1 (peopleE D e1) m / cap)
          ≤ premiumTier (naturalScheduleV e2 (peopleE D e2) m / cap) :=
        premiumTier_mono ((div_le_div_right hcap).mpr hnm)
      have hp1 : (0 : ℝ) ≤ premiumTier (naturalScheduleV e1 (peopleE D e1) m / cap) :=
        le_trans (by norm_num) (premiumTier_ge _)
      exact mul_le_mul hbase ht hp1 hbase2
    · rw [rcE_coord D w m cap hb1, rcE_premium D w m cap hcap hb2]
      have hc1 : coordinationPremiumV e1 (peopleE D e1) m cap ≤ 11/10 := coordV_le hb1
      have ht : coordinationPremiumV e1 (peopleE D e1) m cap
          ≤ premiumTier (naturalScheduleV e2 (peopleE D e2) m / cap) :=
        le_trans hc1 (le_trans (by norm_num) (premiumTier_ge _))
      exact mul_le_mul hbase ht (coordV_nonneg _ _ _ _) hbase2
  · have hb1 : ¬ cap < naturalScheduleV e1 (peopleE D e1) m :=
      fun h => hb2 (lt_of_lt_of_le h hnm)
    rw [rcE_coord D w m cap hb1, rcE_coord D w m cap hb2]
    have hf : finalPeopleV (peopleE D e1) m ≤ finalPeopleV (peopleE D e2) m :=
      finalPeopleV_mono (peopleE_mono D hD0 hD1 h0 h12)
    have hcoord : coordinationPremiumV e1 (peopleE D e1) m cap
        ≤ coordinationPremiumV e2 (peopleE D e2) m cap := by
      unfold coordinationPremiumV
      rw [if_neg hb1, if_neg hb2]
      split_ifs with hx hy <;> linarith
    exact mul_le_mul hbase hcoord (coordV_nonneg _ _ _ _) hbase2

/-- Claim C6: with a fixed parameter set (within the declared parameter
ranges of the data model: positive wage and caps, bounded multipliers)
and no language mix, the realistic cost — both the exact value and the
reported rounded `realistic_cost_usd` — is monotonically non-decreasing
in the code-line count. -/
theorem claim_C6 (p : EstParams) (cl1 cl2 : ℚ)
    (hte : p.team_experience ≤ 5)
    (hru : 7/10 ≤ p.reuse_factor) (hts : 4/5 ≤ p.tool_support)
    (hrely : 41/50 ≤ p.rely) (hcplx : 73/100 ≤ p.cplx) (hruse : 19/20 ≤ p.ruse)
    (hpcon : 81/100 ≤ p.pcon) (hapex : 81/100 ≤ p.apex)
    (hw : 0 < p.avg_wage) (hmt : 0 < p.max_team_size) (hms : 0 < p.max_schedule_months)
    (h0 : 0 ≤ cl1) (h12 : cl1 ≤ cl2) :
    rcK (KLOCof cl1 none) p ≤ rcK (KLOCof cl2 none) p
    ∧ (computeEstimate cl1 none p).realistic_cost_usd
        ≤ (computeEstimate cl2 none p).realistic_cost_usd := by
  have hEM : 0 < EM_total p :=
    EM_total_pos p hte hru hts hrely hcplx hruse hpcon hapex
  have hK0 : 0 ≤ KLOCof cl1 none := by
    unfold KLOCof
    exact div_nonneg h0 (by norm_num)
  have hK12 : KLOCof cl1 none ≤ KLOCof cl2 none := by
    unfold KLOCof
    linarith
  have he0 : 0 ≤ effortK (KLOCof cl1 none) p :=
    effortK_nonneg _ p hK0 (le_of_lt hEM)
  have he12 : effortK (KLOCof cl1 none) p ≤ effortK (KLOCof cl2 none) p :=
    effortK_mono _ _ p hK0 hK12 (le_of_lt hEM)
  have hD := Dof_bounds p.complexity
  have hD0 : (0 : ℝ) < ((Dof p.complexity : ℚ) : ℝ) := by exact_mod_cast hD.1
  have hD1 : ((Dof p.complexity : ℚ) : ℝ) < 1 := by exact_mod_cast hD.2
  have hwR : (0 : ℝ) < ((p.avg_wage : ℚ) : ℝ) := by exact_mod_cast hw
  have hmR : (0 : ℝ) < ((p.max_team_size : ℚ) : ℝ) := by exact_mod_cast hmt
  have hcapR : (0 : ℝ) < ((p.max_schedule_months : ℚ) : ℝ) := by exact_mod_cast hms
  have hmain : rcK (KLOCof cl1 none) p ≤ rcK (KLOCof cl2 none) p := by
    unfold rcK
    exact rcE_mono _ _ _ _ hD0 hD1 hwR hmR hcapR he0 he12
  exact ⟨hmain, pyRound_mono hmain⟩

/-- Default parameters of the source signature, used as concrete
witness inputs. -/
def defaultParams : EstParams :=
  { complexity := "medium", team_experience := 4, reuse_factor := 1, tool_support := 1,
    avg_wage := 105000, max_team_size := 5, max_schedule_months := 24,
    rely := 1, cplx := 1, ruse := 1, pcon := 1, apex := 1,
    maintenance_rate := 1/5, maintenance_years := 0 }

theorem claim_C6_witness :
    (defaultParams.team_experience ≤ 5
    ∧ 7/10 ≤ defaultParams.reuse_factor ∧ 4/5 ≤ defaultParams.tool_support
    ∧ 41/50 ≤ defaultParams.rely ∧ 73/100 ≤ defaultParams.cplx
    ∧ 19/20 ≤ defaultParams.ruse ∧ 81/100 ≤ defaultParams.pcon
    ∧ 81/100 ≤ defaultParams.apex ∧ 0 < defaultParams.avg_wage
    ∧ 0 < defaultParams.max_team_size ∧ 0 < defaultParams.max_schedule_months
    ∧ (0 : ℚ) ≤ 1000 ∧ (1000 : ℚ) ≤ 2000)
    ∧ (rcK (KLOCof 1000 none) defaultParams ≤ rcK (KLOCof 2000 none) defaultParams
      ∧ (computeEstimate 1000 none defaultParams).realistic_cost_usd
          ≤ (computeEstimate 2000 none defaultParams).realistic_cost_usd) :=
  ⟨by norm_num [defaultParams],
    claim_C6 defaultParams 1000 2000 (by norm_num [defaultParams])
      (by norm_num [defaultParams]) (by norm_num [defaultParams])
      (by norm_num [defaultParams]) (by norm_num [defaultParams])
      (by norm_num [defaultParams]) (by norm_num [defaultParams])
      (by norm_num [defaultParams]) (by norm_num [defaultParams])
      (by norm_num [defaultParams]) (by norm_num [defaultParams])
      (by norm_num) (by norm_num)⟩

/-!
## Claim C10: with a language mix, `code_lines` is only echoed
-/

theorem validate_cl_indep (p : EstParams) {cl1 cl2 : ℚ}
    (h1 : 0 ≤ cl1) (h2 : 0 ≤ cl2) : validate cl1 p = validate cl2 p := by
  unfold validate
  rw [if_neg (not_lt.mpr h1), if_neg (not_lt.mpr h2)]

theorem KLOC_mix_indep (m : List (String × ℚ)) (hm : m ≠ []) (cl1 cl2 : ℚ) :
    KLOCof cl1 (some m) = KLOCof cl2 (some m) := by
  have he : m.isEmpty = false := by
    cases m with
    | nil => exact absurd rfl hm
    | cons a as => rfl
  show (if m.isEmpty = true then cl1 / 1000 else weightedLines m / 1000)
      = (if m.isEmpty = true then cl2 / 1000 else weightedLines m / 1000)
  rw [he]
  rfl

/-- Claim C10: when a (truthy, i.e. nonempty) per-language line mix is
supplied, the `code_lines` argument influences nothing but the echoed
`code_lines` field: two calls differing only in non-negative
`code_lines` values return results identical after erasing that field. -/
theorem claim_C10 (p : EstParams) (m : List (String × ℚ)) (hm : m ≠ [])
    (cl1 cl2 : ℚ) (h1 : 0 ≤ cl1) (h2 : 0 ≤ cl2) :
    (estimate_shiny_cost cl1 (some m) p).map eraseCodeLines
      = (estimate_shiny_cost cl2 (some m) p).map eraseCodeLines
    ∧ (computeEstimate cl1 (some m) p).code_lines = cl1
    ∧ (computeEstimate cl2 (some m) p).code_lines = cl2 := by
  have hK := KLOC_mix_indep m hm cl1 cl2
  have hv := validate_cl_indep p h1 h2
  refine ⟨?_, rfl, rfl⟩
  have hcc : eraseCodeLines (computeEstimate cl1 (some m) p)
      = eraseCodeLines (computeEstimate cl2 (some m) p) := by
    unfold computeEstimate
    rw [hK]
    rfl
  unfold estimate_shiny_cost
  rw [← hv]
  cases hval : validate cl1 p with
  | some msg => rfl
  | none =>
    show Except.ok (eraseCodeLines (computeEstimate cl1 (some m) p))
      = Except.ok (eraseCodeLines (computeEstimate cl2 (some m) p))
    rw [hcc]

theorem claim_C10_witness :
    ([("R", (500 : ℚ))] ≠ ([] : List (String × ℚ)))
    ∧ (0 : ℚ) ≤ 0 ∧ (0 : ℚ) ≤ 5
    ∧ ((estimate_shiny_cost 0 (some [("R", (500 : ℚ))]) defaultParams).map eraseCodeLines
        = (estimate_shiny_cost 5 (some [("R", (500 : ℚ))]) defaultParams).map eraseCodeLines
      ∧ (computeEstimate 0 (some [("R", (500 : ℚ))]) defaultParams).code_lines = 0
      ∧ (computeEstimate 5 (some [("R", (500 : ℚ))]) defaultParams).code_lines = 5) :=
  ⟨by simp, by norm_num, by norm_num,
    claim_C10 defaultParams [("R", (500 : ℚ))] (by simp) 0 5 (by norm_num) (by norm_num)⟩
